import Mathlib

/-
Verification of the BookGX backend relay (src/server.js): a stateless HTTP
service exposing four Google-Sheets operations (fetchSheets, fetchHeaders,
fetchData, testAccess) plus a health check and a 404 fallback.

The embedding models each Express handler as a pure function from the parsed
request body and the outcome of the single upstream Google API call to a
result record.  The record carries the HTTP status, the JSON body (absent JSON
fields are `Option.none`), the credential object handed to the authenticated
client factory (`none` when validation short-circuited before construction),
and the range string passed to the upstream values call when one is issued.
JavaScript truthiness on optional string fields is modelled explicitly: a
field is truthy exactly when it is present and non-empty.
-/

namespace BookGX

/-- JS truthiness of an optional string field of the parsed JSON body:
truthy exactly when present and non-empty (undefined and "" are falsy). -/
def truthy : Option String → Bool
  | some s => s ≠ ""
  | none => false

/-- The `connection` object of a request body; each credential subfield may be
absent. -/
structure Connection where
  clientEmail : Option String
  privateKey : Option String
  projectId : Option String
deriving DecidableEq

/-- A parsed request body.  `range` is used by fetchHeaders (with default
"A1:ZZ1") and fetchData (no default). -/
structure RequestBody where
  spreadsheetId : Option String
  sheetName : Option String
  connection : Option Connection
  range : Option String
deriving DecidableEq

/-- Validation of the credential triple, mirroring
`!connection || !connection.clientEmail || !connection.privateKey ||
!connection.projectId` in each handler. -/
def connectionValid : Option Connection → Bool
  | none => false
  | some c => truthy c.clientEmail && truthy c.privateKey && truthy c.projectId

/-- The service-account object each handler builds from the validated
connection fields and passes to `createSheetsClient`. -/
structure ServiceAccount where
  clientEmail : String
  privateKey : String
  projectId : String
deriving DecidableEq

/-- Extraction of the service-account object from a connection (called only
after validation, so the `getD ""` defaults are never exercised). -/
def serviceAccountOf (c : Connection) : ServiceAccount :=
  ⟨c.clientEmail.getD "", c.privateKey.getD "", c.projectId.getD ""⟩

/-- One pass of the global regex replacement `privateKey.replace(/\\n/g, "\n")`
over the character sequence of the key: each literal two-character
backslash-n occurrence, scanned left to right without overlap, becomes one
actual newline character. -/
def normalizeNewlineEscapes : List Char → List Char
  | [] => []
  | [c] => [c]
  | c1 :: c2 :: rest =>
    if c1 = '\\' ∧ c2 = 'n' then '\n' :: normalizeNewlineEscapes rest
    else c1 :: normalizeNewlineEscapes (c2 :: rest)

/-- String-level wrapper of the newline-escape normalization applied to the
private key in `createSheetsClient`. -/
def normalizeKey (s : String) : String :=
  String.mk (normalizeNewlineEscapes s.data)

/-- Whether a character sequence contains a literal two-character backslash-n
substring. -/
def hasLiteralBackslashN : List Char → Bool
  | [] => false
  | [_] => false
  | c1 :: c2 :: rest =>
    decide (c1 = '\\' ∧ c2 = 'n') || hasLiteralBackslashN (c2 :: rest)

/-- The `credentials` object handed to `new google.auth.GoogleAuth` inside
`createSheetsClient`: the email and project id verbatim, the private key with
escaped newlines normalized. -/
structure ClientCredentials where
  client_email : String
  private_key : String
  project_id : String
deriving DecidableEq

/-- Model of `createSheetsClient`: the credentials it hands to the Google auth
library. -/
def createSheetsClientCreds (sa : ServiceAccount) : ClientCredentials :=
  ⟨sa.clientEmail, normalizeKey sa.privateKey, sa.projectId⟩

/-- An upstream failure (a thrown error reaching a handler catch block): an
optional numeric `code` property and an optional `message` property. -/
structure UpstreamError where
  code : Option Nat
  message : Option String
deriving DecidableEq

/-- The machine-readable `code` field of a failure response body: the upstream
numeric code when truthy, otherwise the sentinel string "UNKNOWN_ERROR". -/
inductive ErrCode where
  | num : Nat → ErrCode
  | unknownError : ErrCode
deriving DecidableEq

/-- Model of `error.code || "UNKNOWN_ERROR"` (a code of 0 is falsy in JS and
also falls back to the sentinel). -/
def codeOf (e : UpstreamError) : ErrCode :=
  match e.code with
  | some c => if c = 0 then ErrCode.unknownError else ErrCode.num c
  | none => ErrCode.unknownError

/-- Error message translation in the fetchSheets catch block. -/
def fetchSheetsErrorMessage (e : UpstreamError) : String :=
  if e.code = some 403 then
    "Permission denied - ensure service account has access to the sheet"
  else if e.code = some 404 then
    "Spreadsheet not found - check the spreadsheet ID"
  else match e.message with
    | some m => if m = "" then "Failed to fetch sheets" else m
    | none => "Failed to fetch sheets"

/-- Error message translation in the fetchHeaders catch block (the only one
with a 400 branch). -/
def fetchHeadersErrorMessage (e : UpstreamError) : String :=
  if e.code = some 403 then
    "Permission denied - ensure service account has access to the sheet"
  else if e.code = some 404 then
    "Sheet not found - check the sheet name and spreadsheet ID"
  else if e.code = some 400 then
    "Invalid range - check the range format"
  else match e.message with
    | some m => if m = "" then "Failed to fetch headers" else m
    | none => "Failed to fetch headers"

/-- Error message translation in the fetchData catch block (no 400 branch). -/
def fetchDataErrorMessage (e : UpstreamError) : String :=
  if e.code = some 403 then
    "Permission denied - ensure service account has access to the sheet"
  else if e.code = some 404 then
    "Sheet not found - check the sheet name and spreadsheet ID"
  else match e.message with
    | some m => if m = "" then "Failed to fetch data" else m
    | none => "Failed to fetch data"

/-- Sheet properties requested by fetchSheets (`fields: "sheets.properties.title"`). -/
structure SheetProperties where
  title : String
deriving DecidableEq

/-- One sheet entry of the spreadsheet metadata result. -/
structure Sheet where
  properties : SheetProperties
deriving DecidableEq

/-- Result of the metadata call made by fetchSheets; the `sheets` field may be
absent from the response data. -/
structure SheetsMetaResult where
  sheets : Option (List Sheet)
deriving DecidableEq

/-- Spreadsheet-level properties requested by testAccess
(`fields: "properties.title"`); the title itself may be absent. -/
structure SpreadsheetProperties where
  title : Option String
deriving DecidableEq

/-- Result of the metadata call made by testAccess; the `properties` field may
be absent from the response data. -/
structure TitleMetaResult where
  properties : Option SpreadsheetProperties
deriving DecidableEq

/-- Result of a values call (fetchHeaders, fetchData); the `values` field is
absent when the range holds no data.  Rows may have differing lengths. -/
structure ValuesResult where
  values : Option (List (List String))
deriving DecidableEq

/-- Model of JavaScript `String.prototype.trim` as called on each header cell:
removes leading and trailing whitespace characters. -/
def jsTrim (s : String) : String :=
  String.mk (((s.data.dropWhile Char.isWhitespace).reverse.dropWhile
    Char.isWhitespace).reverse)

/-- Model of `response.data.values?.[0] || []`: the first row when one exists,
otherwise the empty row. -/
def firstRowOf : Option (List (List String)) → List String
  | some (row :: _) => row
  | _ => []

/-- JSON body of a fetchSheets response.  `validationError` is the bare
`
{ error }` 400 body, `ok` the success body (with `success: true` implied),
`upstreamError` the 500 body (with `success: false` implied). -/
inductive SheetsBody where
  | validationError : String → SheetsBody
  | ok : List String → Nat → String → SheetsBody
  | upstreamError : String → ErrCode → SheetsBody
deriving DecidableEq

/-- JSON body of a fetchHeaders response: headers, count, sheetName,
spreadsheetId on success. -/
inductive HeadersBody where
  | validationError : String → HeadersBody
  | ok : List String → Nat → String → String → HeadersBody
  | upstreamError : String → ErrCode → HeadersBody
deriving DecidableEq

/-- JSON body of a fetchData response: data, rowCount, sheetName,
spreadsheetId on success. -/
inductive DataBody where
  | validationError : String → DataBody
  | ok : List (List String) → Nat → String → String → DataBody
  | upstreamError : String → ErrCode → DataBody
deriving DecidableEq

/-- JSON body of a testAccess response.  The `result` constructor fields are,
in order: success, hasAccess, spreadsheetTitle, spreadsheetId, error, code
(absent JSON fields are `none`). -/
inductive TestAccessBody where
  | validationError : String → TestAccessBody
  | result : Bool → Bool → Option String → Option String → Option String →
      Option ErrCode → TestAccessBody
deriving DecidableEq

/-- Outcome of one modelled request: HTTP status, JSON body, the credentials
handed to the client factory (`none` when validation short-circuited before
client construction, hence before any network access), and the range argument
of the upstream values call when the handler issues one. -/
structure HandlerResult (β : Type) where
  status : Nat
  body : β
  clientCreds : Option ClientCredentials
  valuesRange : Option String
deriving DecidableEq

/-- Validation-failure message shared by fetchSheets and testAccess. -/
def msgSpreadsheetIdRequired : String := "spreadsheetId is required"

/-- Validation-failure message shared by fetchHeaders and fetchData. -/
def msgIdAndSheetRequired : String := "spreadsheetId and sheetName are required"

/-- Validation-failure message for a missing credential subfield, shared by
all four endpoints. -/
def msgCredentialsRequired : String :=
  "Service account credentials are required (clientEmail, privateKey, projectId)"

/-- Model of the POST /api/fetchSheets handler.  `upstream` is the outcome of
the authenticated metadata call (an `Except.error` covers both client
construction failure and the call itself failing). -/
def fetchSheetsHandler (req : RequestBody)
    (upstream : Except UpstreamError SheetsMetaResult) :
    HandlerResult SheetsBody :=
  if truthy req.spreadsheetId = false then
    ⟨400, SheetsBody.validationError msgSpreadsheetIdRequired, none, none⟩
  else if connectionValid req.connection = false then
    ⟨400, SheetsBody.validationError msgCredentialsRequired, none, none⟩
  else
    let creds := createSheetsClientCreds
      (serviceAccountOf ((req.connection).getD ⟨none, none, none⟩))
    match upstream with
    | Except.ok meta =>
      match meta.sheets with
      | some sheets =>
        let sheetNames := sheets.map (fun s => s.properties.title)
        ⟨200, SheetsBody.ok sheetNames sheetNames.length (req.spreadsheetId.getD ""),
          some creds, none⟩
      | none =>
        ⟨200, SheetsBody.ok [] 0 (req.spreadsheetId.getD ""), some creds, none⟩
    | Except.error e =>
      ⟨500, SheetsBody.upstreamError (fetchSheetsErrorMessage e) (codeOf e),
        some creds, none⟩

/-- Model of the POST /api/fetchHeaders handler.  The values call targets
sheetName!range with range defaulting to "A1:ZZ1". -/
def fetchHeadersHandler (req : RequestBody)
    (upstream : Except UpstreamError ValuesResult) :
    HandlerResult HeadersBody :=
  if (truthy req.spreadsheetId && truthy req.sheetName) = false then
    ⟨400, HeadersBody.validationError msgIdAndSheetRequired, none, none⟩
  else if connectionValid req.connection = false then
    ⟨400, HeadersBody.validationError msgCredentialsRequired, none, none⟩
  else
    let creds := createSheetsClientCreds
      (serviceAccountOf ((req.connection).getD ⟨none, none, none⟩))
    let callRange := (req.sheetName.getD "") ++ "!" ++ (req.range.getD "A1:ZZ1")
    match upstream with
    | Except.ok vres =>
      let headers := firstRowOf vres.values
      let filteredHeaders := headers.filter (fun h => h != "" && jsTrim h != "")
      ⟨200, HeadersBody.ok filteredHeaders filteredHeaders.length
        (req.sheetName.getD "") (req.spreadsheetId.getD ""),
        some creds, some callRange⟩
    | Except.error e =>
      ⟨500, HeadersBody.upstreamError (fetchHeadersErrorMessage e) (codeOf e),
        some creds, some callRange⟩

/-- Model of `const targetRange = range ? sheetName + "!" + range : sheetName`
in the fetchData handler (an empty-string range is falsy). -/
def targetRange (sheetName : String) (range : Option String) : String :=
  match range with
  | some r => if r = "" then sheetName else sheetName ++ "!" ++ r
  | none => sheetName

/-- Model of the POST /api/fetchData handler. -/
def fetchDataHandler (req : RequestBody)
    (upstream : Except UpstreamError ValuesResult) :
    HandlerResult DataBody :=
  if (truthy req.spreadsheetId && truthy req.sheetName) = false then
    ⟨400, DataBody.validationError msgIdAndSheetRequired, none, none⟩
  else if connectionValid req.connection = false then
    ⟨400, DataBody.validationError msgCredentialsRequired, none, none⟩
  else
    let creds := createSheetsClientCreds
      (serviceAccountOf ((req.connection).getD ⟨none, none, none⟩))
    let callRange := targetRange (req.sheetName.getD "") req.range
    match upstream with
    | Except.ok vres =>
      let rows := vres.values.getD []
      ⟨200, DataBody.ok rows rows.length
        (req.sheetName.getD "") (req.spreadsheetId.getD ""),
        some creds, some callRange⟩
    | Except.error e =>
      ⟨500, DataBody.upstreamError (fetchDataErrorMessage e) (codeOf e),
        some creds, some callRange⟩

/-- Model of `response.data.properties?.title || "Unknown"` in testAccess. -/
def titleOf (meta : TitleMetaResult) : String :=
  match meta.properties with
  | some p =>
    match p.title with
    | some t => if t = "" then "Unknown" else t
    | none => "Unknown"
  | none => "Unknown"

/-- Model of the POST /api/testAccess handler.  Both the success and the
failure branch respond with HTTP 200 and `success: true`; only `hasAccess`
distinguishes them, and the failure body embeds the error message and code. -/
def testAccessHandler (req : RequestBody)
    (upstream : Except UpstreamError TitleMetaResult) :
    HandlerResult TestAccessBody :=
  if truthy req.spreadsheetId = false then
    ⟨400, TestAccessBody.validationError msgSpreadsheetIdRequired, none, none⟩
  else if connectionValid req.connection = false then
    ⟨400, TestAccessBody.validationError msgCredentialsRequired, none, none⟩
  else
    let creds := createSheetsClientCreds
      (serviceAccountOf ((req.connection).getD ⟨none, none, none⟩))
    match upstream with
    | Except.ok meta =>
      ⟨200, TestAccessBody.result true true (some (titleOf meta))
        (some (req.spreadsheetId.getD "")) none none, some creds, none⟩
    | Except.error e =>
      ⟨200, TestAccessBody.result true false none none e.message
        (some (codeOf e)), some creds, none⟩

/-- The five registered routes of the Express app, as (method, path) pairs. -/
def knownRoutes : List (String × String) :=
  [("GET", "/health"), ("POST", "/api/fetchSheets"), ("POST", "/api/fetchHeaders"),
   ("POST", "/api/fetchData"), ("POST", "/api/testAccess")]

/-- Whether a request's method and path match one of the registered routes. -/
def routeMatches (m p : String) : Bool :=
  knownRoutes.any (fun r => r.1 == m && r.2 == p)

/-- JSON body of the 404 fallback response: success flag, error message, list
of available endpoints. -/
structure NotFoundBody where
  success : Bool
  error : String
  availableEndpoints : List String
deriving DecidableEq

/-- Model of the terminal 404 middleware: reached exactly when no registered
route matched, in which case it responds 404 with the fixed endpoint list. -/
def dispatchFallback (m p : String) : Option (Nat × NotFoundBody) :=
  if routeMatches m p then none
  else some (404, ⟨false, "Endpoint not found",
    ["GET /health", "POST /api/fetchSheets", "POST /api/fetchHeaders",
     "POST /api/fetchData", "POST /api/testAccess"]⟩)

/-- Shared demo connection used by concrete witnesses. -/
def connDemo : Connection :=
  ⟨some "svc@example.com", some "KEY\\nDATA", some "proj-1"⟩

/-- Shared demo request body with a given range field. -/
def reqWithRange (r : Option String) : RequestBody :=
  ⟨some "spread-1", some "Sheet1", some connDemo, r⟩

/-- Shared demo request body without a range field. -/
def reqDemo : RequestBody := reqWithRange none

/-- The credentials a validated handler hands to the client factory. -/
def credsOf (req : RequestBody) : ClientCredentials :=
  createSheetsClientCreds (serviceAccountOf ((req.connection).getD ⟨none, none, none⟩))

/- Characterization lemmas for each handler branch, shared by the claim
theorems below. -/

theorem normalizeNewlineEscapes_head_n (l : List Char)
    (h : (normalizeNewlineEscapes l).head? = some 'n') : l.head? = some 'n' := by
  match l with
  | [] => simp [normalizeNewlineEscapes] at h
  | [c] =>
    rw [normalizeNewlineEscapes] at h
    exact h
  | c1 :: c2 :: rest =>
    rw [normalizeNewlineEscapes] at h
    by_cases hc : c1 = '\\' ∧ c2 = 'n'
    · rw [if_pos hc] at h
      simp only [List.head?_cons, Option.some.injEq] at h
      exact absurd h (by decide)
    · rw [if_neg hc] at h
      simp only [List.head?_cons, Option.some.injEq] at h
      simp [h]

theorem hasLiteralBackslashN_normalize :
    ∀ l : List Char, hasLiteralBackslashN (normalizeNewlineEscapes l) = false
  | [] => rfl
  | [c] => by
    rw [normalizeNewlineEscapes]
    rfl
  | c1 :: c2 :: rest => by
    rw [normalizeNewlineEscapes]
    by_cases hc : c1 = '\\' ∧ c2 = 'n'
    · rw [if_pos hc]
      have ih := hasLiteralBackslashN_normalize rest
      cases hn : normalizeNewlineEscapes rest with
      | nil => rfl
      | cons d t =>
        rw [hn] at ih
        rw [hasLiteralBackslashN, Bool.or_eq_false_iff]
        refine ⟨decide_eq_false ?_, ih⟩
        rintro ⟨h1, -⟩
        exact absurd h1 (by decide)
    · rw [if_neg hc]
      have ih := hasLiteralBackslashN_normalize (c2 :: rest)
      cases hn : normalizeNewlineEscapes (c2 :: rest) with
      | nil => rfl
      | cons d t =>
        rw [hn] at ih
        rw [hasLiteralBackslashN, Bool.or_eq_false_iff]
        refine ⟨decide_eq_false ?_, ih⟩
        rintro ⟨h1, h2⟩
        have hd : (normalizeNewlineEscapes (c2 :: rest)).head? = some 'n' := by
          rw [hn, h2]
          rfl
        have hcc := normalizeNewlineEscapes_head_n _ hd
        simp only [List.head?_cons, Option.some.injEq] at hcc
        exact hc ⟨h1, hcc⟩

/-- The normalized private key never contains a literal backslash-n pair. -/
theorem normalizeKey_no_backslash_n (s : String) :
    hasLiteralBackslashN (normalizeKey s).data = false :=
  hasLiteralBackslashN_normalize s.data

theorem fetchSheetsHandler_missing_id (req : RequestBody)
    (u : Except UpstreamError SheetsMetaResult)
    (h : truthy req.spreadsheetId = false) :
    fetchSheetsHandler req u =
      ⟨400, SheetsBody.validationError msgSpreadsheetIdRequired, none, none⟩ := by
  simp [fetchSheetsHandler, h]

theorem fetchSheetsHandler_missing_creds (req : RequestBody)
    (u : Except UpstreamError SheetsMetaResult)
    (hid : truthy req.spreadsheetId = true)
    (h : connectionValid req.connection = false) :
    fetchSheetsHandler req u =
      ⟨400, SheetsBody.validationError msgCredentialsRequired, none, none⟩ := by
  simp [fetchSheetsHandler, hid, h]

theorem fetchSheetsHandler_ok_some (req : RequestBody) (l : List Sheet)
    (hid : truthy req.spreadsheetId = true)
    (hc : connectionValid req.connection = true) :
    fetchSheetsHandler req (Except.ok ⟨some l⟩) =
      ⟨200, SheetsBody.ok (l.map fun s => s.properties.title)
        (l.map fun s => s.properties.title).length (req.spreadsheetId.getD ""),
        some (credsOf req), none⟩ := by
  simp [fetchSheetsHandler, hid, hc, credsOf]

theorem fetchSheetsHandler_ok_none (req : RequestBody)
    (hid : truthy req.spreadsheetId = true)
    (hc : connectionValid req.connection = true) :
    fetchSheetsHandler req (Except.ok ⟨none⟩) =
      ⟨200, SheetsBody.ok [] 0 (req.spreadsheetId.getD ""),
        some (credsOf req), none⟩ := by
  simp [fetchSheetsHandler, hid, hc, credsOf]

theorem fetchSheetsHandler_err (req : RequestBody) (e : UpstreamError)
    (hid : truthy req.spreadsheetId = true)
    (hc : connectionValid req.connection = true) :
    fetchSheetsHandler req (Except.error e) =
      ⟨500, SheetsBody.upstreamError (fetchSheetsErrorMessage e) (codeOf e),
        some (credsOf req), none⟩ := by
  simp [fetchSheetsHandler, hid, hc, credsOf]

theorem fetchHeadersHandler_missing_id (req : RequestBody)
    (u : Except UpstreamError ValuesResult)
    (h : (truthy req.spreadsheetId && truthy req.sheetName) = false) :
    fetchHeadersHandler req u =
      ⟨400, HeadersBody.validationError msgIdAndSheetRequired, none, none⟩ := by
  simp only [fetchHeadersHandler, h, if_pos]

theorem fetchHeadersHandler_missing_creds (req : RequestBody)
    (u : Except UpstreamError ValuesResult)
    (hid : truthy req.spreadsheetId = true)
    (hsn : truthy req.sheetName = true)
    (h : connectionValid req.connection = false) :
    fetchHeadersHandler req u =
      ⟨400, HeadersBody.validationError msgCredentialsRequired, none, none⟩ := by
  simp [fetchHeadersHandler, hid, hsn, h]

theorem fetchHeadersHandler_ok (req : RequestBody) (v : Option (List (List String)))
    (hid : truthy req.spreadsheetId = true)
    (hsn : truthy req.sheetName = true)
    (hc : connectionValid req.connection = true) :
    fetchHeadersHandler req (Except.ok ⟨v⟩) =
      ⟨200, HeadersBody.ok ((firstRowOf v).filter (fun h => h != "" && jsTrim h != ""))
        ((firstRowOf v).filter (fun h => h != "" && jsTrim h != "")).length
        (req.sheetName.getD "") (req.spreadsheetId.getD ""),
        some (credsOf req),
        some ((req.sheetName.getD "") ++ "!" ++ (req.range.getD "A1:ZZ1"))⟩ := by
  simp [fetchHeadersHandler, hid, hsn, hc, credsOf]

theorem fetchHeadersHandler_err (req : RequestBody) (e : UpstreamError)
    (hid : truthy req.spreadsheetId = true)
    (hsn : truthy req.sheetName = true)
    (hc : connectionValid req.connection = true) :
    fetchHeadersHandler req (Except.error e) =
      ⟨500, HeadersBody.upstreamError (fetchHeadersErrorMessage e) (codeOf e),
        some (credsOf req),
        some ((req.sheetName.getD "") ++ "!" ++ (req.range.getD "A1:ZZ1"))⟩ := by
  simp [fetchHeadersHandler, hid, hsn, hc, credsOf]

theorem fetchDataHandler_missing_id (req : RequestBody)
    (u : Except UpstreamError ValuesResult)
    (h : (truthy req.spreadsheetId && truthy req.sheetName) = false) :
    fetchDataHandler req u =
      ⟨400, DataBody.validationError msgIdAndSheetRequired, none, none⟩ := by
  simp only [fetchDataHandler, h, if_pos]

theorem fetchDataHandler_missing_creds (req : RequestBody)
    (u : Except UpstreamError ValuesResult)
    (hid : truthy req.spreadsheetId = true)
    (hsn : truthy req.sheetName = true)
    (h : connectionValid req.connection = false) :
    fetchDataHandler req u =
      ⟨400, DataBody.validationError msgCredentialsRequired, none, none⟩ := by
  simp [fetchDataHandler, hid, hsn, h]

theorem fetchDataHandler_ok (req : RequestBody) (v : Option (List (List String)))
    (hid : truthy req.spreadsheetId = true)
    (hsn : truthy req.sheetName = true)
    (hc : connectionValid req.connection = true) :
    fetchDataHandler req (Except.ok ⟨v⟩) =
      ⟨200, DataBody.ok (v.getD []) (v.getD []).length
        (req.sheetName.getD "") (req.spreadsheetId.getD ""),
        some (credsOf req),
        some (targetRange (req.sheetName.getD "") req.range)⟩ := by
  simp [fetchDataHandler, hid, hsn, hc, credsOf]

theorem fetchDataHandler_err (req : RequestBody) (e : UpstreamError)
    (hid : truthy req.spreadsheetId = true)
    (hsn : truthy req.sheetName = true)
    (hc : connectionValid req.connection = true) :
    fetchDataHandler req (Except.error e) =
      ⟨500, DataBody.upstreamError (fetchDataErrorMessage e) (codeOf e),
        some (credsOf req),
        some (targetRange (req.sheetName.getD "") req.range)⟩ := by
  simp [fetchDataHandler, hid, hsn, hc, credsOf]

theorem testAccessHandler_missing_id (req : RequestBody)
    (u : Except UpstreamError TitleMetaResult)
    (h : truthy req.spreadsheetId = false) :
    testAccessHandler req u =
      ⟨400, TestAccessBody.validationError msgSpreadsheetIdRequired, none, none⟩ := by
  simp [testAccessHandler, h]

theorem testAccessHandler_missing_creds (req : RequestBody)
    (u : Except UpstreamError TitleMetaResult)
    (hid : truthy req.spreadsheetId = true)
    (h : connectionValid req.connection = false) :
    testAccessHandler req u =
      ⟨400, TestAccessBody.validationError msgCredentialsRequired, none, none⟩ := by
  simp [testAccessHandler, hid, h]

theorem testAccessHandler_ok (req : RequestBody) (meta : TitleMetaResult)
    (hid : truthy req.spreadsheetId = true)
    (hc : connectionValid req.connection = true) :
    testAccessHandler req (Except.ok meta) =
      ⟨200, TestAccessBody.result true true (some (titleOf meta))
        (some (req.spreadsheetId.getD "")) none none,
        some (credsOf req), none⟩ := by
  simp [testAccessHandler, hid, hc, credsOf]

theorem testAccessHandler_err (req : RequestBody) (e : UpstreamError)
    (hid : truthy req.spreadsheetId = true)
    (hc : connectionValid req.connection = true) :
    testAccessHandler req (Except.error e) =
      ⟨200, TestAccessBody.result true false none none e.message
        (some (codeOf e)), some (credsOf req), none⟩ := by
  simp [testAccessHandler, hid, hc, credsOf]

/-- C1 counterexample: the claim as stated fails on the code.  The fetchData
catch block has no 400 branch, so a 400 upstream error with a message yields
the message verbatim instead of the invalid-range guidance; and an upstream
failure carrying an empty message falls back to the generic string instead of
the (empty) upstream message text verbatim. -/
theorem c1_counterexample :
    fetchDataErrorMessage ⟨some 400, some "quota exceeded"⟩ = "quota exceeded" ∧
    (fetchDataHandler reqDemo (Except.error ⟨some 400, some "quota exceeded"⟩)).body =
      DataBody.upstreamError "quota exceeded" (ErrCode.num 400) ∧
    ("quota exceeded" : String) ≠ "Invalid range - check the range format" ∧
    fetchSheetsErrorMessage ⟨some 500, some ""⟩ = "Failed to fetch sheets" ∧
    ("Failed to fetch sheets" : String) ≠ "" := by
  refine ⟨rfl, ?_, by decide, rfl, by decide⟩
  rw [fetchDataHandler_err reqDemo _ (by decide) (by decide) (by decide)]
  rfl

/-- C1 (amended): on each of fetchSheets, fetchHeaders and fetchData, an
upstream failure yields a 500 response whose body carries the translated
message and a machine-readable code.  The translation maps 403 to the
permission-denied guidance, 404 to the endpoint's not-found guidance, 400 to
the invalid-range guidance on the headers endpoint only, and any other
failure to the upstream message verbatim when it is non-empty, otherwise to
the endpoint's generic fallback; the machine-readable code is the upstream
numeric code when nonzero, otherwise the sentinel unknown code. -/
theorem c1_error_mapping (req : RequestBody) (e : UpstreamError)
    (hid : truthy req.spreadsheetId = true)
    (hsn : truthy req.sheetName = true)
    (hc : connectionValid req.connection = true) :
    ((fetchSheetsHandler req (Except.error e)).status = 500 ∧
     (fetchSheetsHandler req (Except.error e)).body =
       SheetsBody.upstreamError (fetchSheetsErrorMessage e) (codeOf e)) ∧
    ((fetchHeadersHandler req (Except.error e)).status = 500 ∧
     (fetchHeadersHandler req (Except.error e)).body =
       HeadersBody.upstreamError (fetchHeadersErrorMessage e) (codeOf e)) ∧
    ((fetchDataHandler req (Except.error e)).status = 500 ∧
     (fetchDataHandler req (Except.error e)).body =
       DataBody.upstreamError (fetchDataErrorMessage e) (codeOf e)) ∧
    (e.code = some 403 →
      fetchSheetsErrorMessage e =
        "Permission denied - ensure service account has access to the sheet" ∧
      fetchHeadersErrorMessage e =
        "Permission denied - ensure service account has access to the sheet" ∧
      fetchDataErrorMessage e =
        "Permission denied - ensure service account has access to the sheet") ∧
    (e.code = some 404 →
      fetchSheetsErrorMessage e = "Spreadsheet not found - check the spreadsheet ID" ∧
      fetchHeadersErrorMessage e = "Sheet not found - check the sheet name and spreadsheet ID" ∧
      fetchDataErrorMessage e = "Sheet not found - check the sheet name and spreadsheet ID") ∧
    (e.code = some 400 →
      fetchHeadersErrorMessage e = "Invalid range - check the range format") ∧
    (e.code ≠ some 403 → e.code ≠ some 404 →
      (∀ m, e.message = some m → m ≠ "" →
        fetchSheetsErrorMessage e = m ∧ fetchDataErrorMessage e = m ∧
        (e.code ≠ some 400 → fetchHeadersErrorMessage e = m)) ∧
      ((e.message = none ∨ e.message = some "") →
        fetchSheetsErrorMessage e = "Failed to fetch sheets" ∧
        fetchDataErrorMessage e = "Failed to fetch data" ∧
        (e.code ≠ some 400 → fetchHeadersErrorMessage e = "Failed to fetch headers"))) ∧
    ((∃ k, e.code = some k ∧ k ≠ 0 ∧ codeOf e = ErrCode.num k) ∨
      (codeOf e = ErrCode.unknownError ∧ (e.code = none ∨ e.code = some 0))) := by
  refine ⟨?_, ?_, ?_, ?_, ?_, ?_, ?_, ?_⟩
  · rw [fetchSheetsHandler_err req e hid hc]
    exact ⟨rfl, rfl⟩
  · rw [fetchHeadersHandler_err req e hid hsn hc]
    exact ⟨rfl, rfl⟩
  · rw [fetchDataHandler_err req e hid hsn hc]
    exact ⟨rfl, rfl⟩
  · intro h
    refine ⟨?_, ?_, ?_⟩ <;>
      simp [fetchSheetsErrorMessage, fetchHeadersErrorMessage, fetchDataErrorMessage, h]
  · intro h
    refine ⟨?_, ?_, ?_⟩ <;>
      simp [fetchSheetsErrorMessage, fetchHeadersErrorMessage, fetchDataErrorMessage, h]
  · intro h
    simp [fetchHeadersErrorMessage, h]
  · intro h3 h4
    constructor
    · intro m hm hne
      refine ⟨?_, ?_, ?_⟩
      · simp [fetchSheetsErrorMessage, h3, h4, hm, hne]
      · simp [fetchDataErrorMessage, h3, h4, hm, hne]
      · intro h400
        simp [fetchHeadersErrorMessage, h3, h4, h400, hm, hne]
    · rintro (hm | hm)
      · refine ⟨?_, ?_, ?_⟩
        · simp [fetchSheetsErrorMessage, h3, h4, hm]
        · simp [fetchDataErrorMessage, h3, h4, hm]
        · intro h400
          simp [fetchHeadersErrorMessage, h3, h4, h400, hm]
      · refine ⟨?_, ?_, ?_⟩
        · simp [fetchSheetsErrorMessage, h3, h4, hm]
        · simp [fetchDataErrorMessage, h3, h4, hm]
        · intro h400
          simp [fetchHeadersErrorMessage, h3, h4, h400, hm]
  · rcases he : e.code with _ | k
    · exact Or.inr ⟨by simp [codeOf, he], Or.inl rfl⟩
    · by_cases hk : k = 0
      · subst hk
        exact Or.inr ⟨by simp [codeOf, he], Or.inr rfl⟩
      · exact Or.inl ⟨k, rfl, hk, by simp [codeOf, he, hk]⟩

/-- C1 witness: the amended mapping evaluated at a concrete validated request
and a concrete 403 failure. -/
theorem c1_witness :
    (fetchSheetsHandler reqDemo (Except.error ⟨some 403, none⟩)).status = 500 ∧
    fetchSheetsErrorMessage ⟨some 403, none⟩ =
      "Permission denied - ensure service account has access to the sheet" := by
  have h := c1_error_mapping reqDemo ⟨some 403, none⟩ (by decide) (by decide) (by decide)
  exact ⟨h.1.1, (h.2.2.2.1 rfl).1⟩

/-- C2: once a testAccess request passes validation, the response status is
200 whether the upstream call succeeds or fails; success carries
hasAccess = true, failure carries hasAccess = false together with the
failure's message and code, while the other three endpoints answer the same
upstream failure with a 500 status. -/
theorem c2_testAccess_always_200 (req : RequestBody)
    (hid : truthy req.spreadsheetId = true)
    (hsn : truthy req.sheetName = true)
    (hc : connectionValid req.connection = true) :
    (∀ meta, (testAccessHandler req (Except.ok meta)).status = 200 ∧
      (testAccessHandler req (Except.ok meta)).body =
        TestAccessBody.result true true (some (titleOf meta))
          (some (req.spreadsheetId.getD "")) none none) ∧
    (∀ e, (testAccessHandler req (Except.error e)).status = 200 ∧
      (testAccessHandler req (Except.error e)).body =
        TestAccessBody.result true false none none e.message (some (codeOf e))) ∧
    (∀ e, (fetchSheetsHandler req (Except.error e)).status = 500 ∧
      (fetchHeadersHandler req (Except.error e)).status = 500 ∧
      (fetchDataHandler req (Except.error e)).status = 500) := by
  refine ⟨?_, ?_, ?_⟩
  · intro meta
    rw [testAccessHandler_ok req meta hid hc]
    exact ⟨rfl, rfl⟩
  · intro e
    rw [testAccessHandler_err req e hid hc]
    exact ⟨rfl, rfl⟩
  · intro e
    rw [fetchSheetsHandler_err req e hid hc, fetchHeadersHandler_err req e hid hsn hc,
      fetchDataHandler_err req e hid hsn hc]
    exact ⟨rfl, rfl, rfl⟩

/-- C2 witness: concrete validated request, one succeeding and one failing
upstream outcome. -/
theorem c2_witness :
    (testAccessHandler reqDemo (Except.ok ⟨some ⟨some "Budget"⟩⟩)).status = 200 ∧
    (testAccessHandler reqDemo (Except.error ⟨some 403, some "denied"⟩)).status = 200 ∧
    (testAccessHandler reqDemo (Except.error ⟨some 403, some "denied"⟩)).body =
      TestAccessBody.result true false none none (some "denied") (some (ErrCode.num 403)) ∧
    (fetchSheetsHandler reqDemo (Except.error ⟨some 403, some "denied"⟩)).status = 500 := by
  have h := c2_testAccess_always_200 reqDemo (by decide) (by decide) (by decide)
  refine ⟨(h.1 ⟨some ⟨some "Budget"⟩⟩).1, (h.2.1 ⟨some 403, some "denied"⟩).1, ?_, (h.2.2 ⟨some 403, some "denied"⟩).1⟩
  have hb := (h.2.1 ⟨some 403, some "denied"⟩).2
  simpa using hb

/-- C3: a spreadsheet-endpoint request missing spreadsheetId, missing
sheetName where required, or missing any credential subfield is answered with
a 400 naming the missing field set, and the handler neither constructs a
client nor issues an upstream call (the result is the same for every upstream
outcome and records no credentials and no values-call range). -/
theorem c3_validation_short_circuit (req : RequestBody) :
    (∀ u : Except UpstreamError SheetsMetaResult,
      ((truthy req.spreadsheetId = false ∨ connectionValid req.connection = false) →
        (fetchSheetsHandler req u).status = 400 ∧
        (fetchSheetsHandler req u).clientCreds = none ∧
        (fetchSheetsHandler req u).valuesRange = none) ∧
      (truthy req.spreadsheetId = false →
        (fetchSheetsHandler req u).body = SheetsBody.validationError msgSpreadsheetIdRequired) ∧
      (truthy req.spreadsheetId = true → connectionValid req.connection = false →
        (fetchSheetsHandler req u).body = SheetsBody.validationError msgCredentialsRequired)) ∧
    (∀ u : Except UpstreamError ValuesResult,
      ((truthy req.spreadsheetId = false ∨ truthy req.sheetName = false ∨
          connectionValid req.connection = false) →
        (fetchHeadersHandler req u).status = 400 ∧
        (fetchHeadersHandler req u).clientCreds = none ∧
        (fetchHeadersHandler req u).valuesRange = none) ∧
      ((truthy req.spreadsheetId = false ∨ truthy req.sheetName = false) →
        (fetchHeadersHandler req u).body = HeadersBody.validationError msgIdAndSheetRequired) ∧
      (truthy req.spreadsheetId = true → truthy req.sheetName = true →
        connectionValid req.connection = false →
        (fetchHeadersHandler req u).body = HeadersBody.validationError msgCredentialsRequired)) ∧
    (∀ u : Except UpstreamError ValuesResult,
      ((truthy req.spreadsheetId = false ∨ truthy req.sheetName = false ∨
          connectionValid req.connection = false) →
        (fetchDataHandler req u).status = 400 ∧
        (fetchDataHandler req u).clientCreds = none ∧
        (fetchDataHandler req u).valuesRange = none) ∧
      ((truthy req.spreadsheetId = false ∨ truthy req.sheetName = false) →
        (fetchDataHandler req u).body = DataBody.validationError msgIdAndSheetRequired) ∧
      (truthy req.spreadsheetId = true → truthy req.sheetName = true →
        connectionValid req.connection = false →
        (fetchDataHandler req u).body = DataBody.validationError msgCredentialsRequired)) ∧
    (∀ u : Except UpstreamError TitleMetaResult,
      ((truthy req.spreadsheetId = false ∨ connectionValid req.connection = false) →
        (testAccessHandler req u).status = 400 ∧
        (testAccessHandler req u).clientCreds = none ∧
        (testAccessHandler req u).valuesRange = none) ∧
      (truthy req.spreadsheetId = false →
        (testAccessHandler req u).body = TestAccessBody.validationError msgSpreadsheetIdRequired) ∧
      (truthy req.spreadsheetId = true → connectionValid req.connection = false →
        (testAccessHandler req u).body = TestAccessBody.validationError msgCredentialsRequired)) := by
  refine ⟨?_, ?_, ?_, ?_⟩
  · intro u
    refine ⟨?_, ?_, ?_⟩
    · rintro (h | h)
      · rw [fetchSheetsHandler_missing_id req u h]
        exact ⟨rfl, rfl, rfl⟩
      · cases hid : truthy req.spreadsheetId with
        | false =>
          rw [fetchSheetsHandler_missing_id req u hid]
          exact ⟨rfl, rfl, rfl⟩
        | true =>
          rw [fetchSheetsHandler_missing_creds req u hid h]
          exact ⟨rfl, rfl, rfl⟩
    · intro h
      rw [fetchSheetsHandler_missing_id req u h]
    · intro hid h
      rw [fetchSheetsHandler_missing_creds req u hid h]
  · intro u
    refine ⟨?_, ?_, ?_⟩
    · rintro (h | h | h)
      · rw [fetchHeadersHandler_missing_id req u (by simp [h])]
        exact ⟨rfl, rfl, rfl⟩
      · rw [fetchHeadersHandler_missing_id req u (by simp [h])]
        exact ⟨rfl, rfl, rfl⟩
      · cases hid : truthy req.spreadsheetId with
        | false =>
          rw [fetchHeadersHandler_missing_id req u (by simp [hid])]
          exact ⟨rfl, rfl, rfl⟩
        | true =>
          cases hsn : truthy req.sheetName with
          | false =>
            rw [fetchHeadersHandler_missing_id req u (by simp [hsn])]
            exact ⟨rfl, rfl, rfl⟩
          | true =>
            rw [fetchHeadersHandler_missing_creds req u hid hsn h]
            exact ⟨rfl, rfl, rfl⟩
    · rintro (h | h)
      · rw [fetchHeadersHandler_missing_id req u (by simp [h])]
      · rw [fetchHeadersHandler_missing_id req u (by simp [h])]
    · intro hid hsn h
      rw [fetchHeadersHandler_missing_creds req u hid hsn h]
  · intro u
    refine ⟨?_, ?_, ?_⟩
    · rintro (h | h | h)
      · rw [fetchDataHandler_missing_id req u (by simp [h])]
        exact ⟨rfl, rfl, rfl⟩
      · rw [fetchDataHandler_missing_id req u (by simp [h])]
        exact ⟨rfl, rfl, rfl⟩
      · cases hid : truthy req.spreadsheetId with
        | false =>
          rw [fetchDataHandler_missing_id req u (by simp [hid])]
          exact ⟨rfl, rfl, rfl⟩
        | true =>
          cases hsn : truthy req.sheetName with
          | false =>
            rw [fetchDataHandler_missing_id req u (by simp [hsn])]
            exact ⟨rfl, rfl, rfl⟩
          | true =>
            rw [fetchDataHandler_missing_creds req u hid hsn h]
            exact ⟨rfl, rfl, rfl⟩
    · rintro (h | h)
      · rw [fetchDataHandler_missing_id req u (by simp [h])]
      · rw [fetchDataHandler_missing_id req u (by simp [h])]
    · intro hid hsn h
      rw [fetchDataHandler_missing_creds req u hid hsn h]
  · intro u
    refine ⟨?_, ?_, ?_⟩
    · rintro (h | h)
      · rw [testAccessHandler_missing_id req u h]
        exact ⟨rfl, rfl, rfl⟩
      · cases hid : truthy req.spreadsheetId with
        | false =>
          rw [testAccessHandler_missing_id req u hid]
          exact ⟨rfl, rfl, rfl⟩
        | true =>
          rw [testAccessHandler_missing_creds req u hid h]
          exact ⟨rfl, rfl, rfl⟩
    · intro h
      rw [testAccessHandler_missing_id req u h]
    · intro hid h
      rw [testAccessHandler_missing_creds req u hid h]

/-- C3 witness: a request with every field absent gets a 400 from fetchSheets
with no client construction, for an arbitrary stubbed upstream outcome. -/
theorem c3_witness :
    (fetchSheetsHandler ⟨none, none, none, none⟩ (Except.ok ⟨none⟩)).status = 400 ∧
    (fetchSheetsHandler ⟨none, none, none, none⟩ (Except.ok ⟨none⟩)).clientCreds = none ∧
    (fetchSheetsHandler ⟨none, none, none, none⟩ (Except.ok ⟨none⟩)).body =
      SheetsBody.validationError msgSpreadsheetIdRequired := by
  have h := (c3_validation_short_circuit ⟨none, none, none, none⟩).1 (Except.ok ⟨none⟩)
  exact ⟨(h.1 (Or.inl rfl)).1, (h.1 (Or.inl rfl)).2.1, h.2.1 rfl⟩

/-- C4: the headers returned by fetchHeaders are the first row of the upstream
values result (empty if absent) with empty or whitespace-only entries removed,
relative order preserved (the filtered list is a sublist of the row), and the
count equals the filtered length; in particular the raw row
["Name", "", "  ", "Age"] yields ["Name", "Age"] with count 2. -/
theorem c4_headers_filtered (req : RequestBody)
    (hid : truthy req.spreadsheetId = true)
    (hsn : truthy req.sheetName = true)
    (hc : connectionValid req.connection = true) :
    (∀ v : Option (List (List String)),
      (fetchHeadersHandler req (Except.ok ⟨v⟩)).body =
        HeadersBody.ok
          ((firstRowOf v).filter (fun h : String => !(h == "" || jsTrim h == "")))
          ((firstRowOf v).filter (fun h : String => !(h == "" || jsTrim h == ""))).length
          (req.sheetName.getD "") (req.spreadsheetId.getD "")) ∧
    (∀ v : Option (List (List String)),
      List.Sublist
        ((firstRowOf v).filter (fun h : String => !(h == "" || jsTrim h == "")))
        (firstRowOf v)) ∧
    firstRowOf none = [] ∧
    (fetchHeadersHandler req (Except.ok ⟨some [["Name", "", "  ", "Age"]]⟩)).body =
      HeadersBody.ok ["Name", "Age"] 2 (req.sheetName.getD "")
        (req.spreadsheetId.getD "") := by
  have hfe : ∀ l : List String,
      l.filter (fun h => h != "" && jsTrim h != "") =
      l.filter (fun h : String => !(h == "" || jsTrim h == "")) := by
    intro l
    apply List.filter_congr
    intro h _
    simp [Bool.not_or, bne]
  refine ⟨?_, ?_, rfl, ?_⟩
  · intro v
    rw [fetchHeadersHandler_ok req v hid hsn hc]
    rw [hfe]
  · intro v
    exact List.filter_sublist _
  · rw [fetchHeadersHandler_ok req _ hid hsn hc]
    have hcv : (firstRowOf (some [["Name", "", "  ", "Age"]])).filter
        (fun h => h != "" && jsTrim h != "") = ["Name", "Age"] := by decide
    rw [hcv]
    rfl

/-- C4 witness: the filtering evaluated at a concrete validated request and
the raw header row from the claim. -/
theorem c4_witness :
    (fetchHeadersHandler reqDemo (Except.ok ⟨some [["Name", "", "  ", "Age"]]⟩)).body =
      HeadersBody.ok ["Name", "Age"] 2 "Sheet1" "spread-1" := by
  have h := c4_headers_filtered reqDemo (by decide) (by decide) (by decide)
  simpa [reqDemo, reqWithRange] using h.2.2.2

/-- C5 counterexample: a range IS supplied in the body (the empty string), yet
the values call targets the sheet name alone, not sheetName!range, because an
empty range string is falsy in the ternary that builds the target. -/
theorem c5_counterexample :
    (reqWithRange (some "")).range = some "" ∧
    (fetchDataHandler (reqWithRange (some "")) (Except.ok ⟨none⟩)).valuesRange =
      some "Sheet1" ∧
    ("Sheet1" : String) ≠ "Sheet1" ++ "!" ++ "" := by
  refine ⟨rfl, ?_, by decide⟩
  rw [fetchDataHandler_ok _ _ (by decide) (by decide) (by decide)]
  rfl

/-- C5 (amended): for every validated fetchData request, the upstream values
call targets sheetName!range when a non-empty range is supplied in the body,
and targets the sheet name alone when the range is absent or is the empty
string (which is falsy). -/
theorem c5_values_call_target (req : RequestBody)
    (hid : truthy req.spreadsheetId = true)
    (hsn : truthy req.sheetName = true)
    (hc : connectionValid req.connection = true) :
    (∀ u : Except UpstreamError ValuesResult,
      (fetchDataHandler req u).valuesRange =
        some (targetRange (req.sheetName.getD "") req.range)) ∧
    (∀ r, req.range = some r → r ≠ "" →
      targetRange (req.sheetName.getD "") req.range =
        (req.sheetName.getD "") ++ "!" ++ r) ∧
    ((req.range = none ∨ req.range = some "") →
      targetRange (req.sheetName.getD "") req.range = req.sheetName.getD "") := by
  refine ⟨?_, ?_, ?_⟩
  · intro u
    cases u with
    | ok vres =>
      cases vres with
      | mk v => rw [fetchDataHandler_ok req v hid hsn hc]
    | error e => rw [fetchDataHandler_err req e hid hsn hc]
  · intro r hr hne
    rw [hr]
    simp [targetRange, hne]
  · rintro (h | h) <;> rw [h] <;> simp [targetRange]

/-- C5 witness: the target at a concrete non-empty range and at an absent
range. -/
theorem c5_witness :
    (fetchDataHandler (reqWithRange (some "A1:B2")) (Except.ok ⟨none⟩)).valuesRange =
      some "Sheet1!A1:B2" ∧
    (fetchDataHandler reqDemo (Except.ok ⟨none⟩)).valuesRange = some "Sheet1" := by
  have h1 := c5_values_call_target (reqWithRange (some "A1:B2"))
    (by decide) (by decide) (by decide)
  have h2 := c5_values_call_target reqDemo (by decide) (by decide) (by decide)
  constructor
  · rw [h1.1 (Except.ok ⟨none⟩), h1.2.1 "A1:B2" rfl (by decide)]
    decide
  · rw [h2.1 (Except.ok ⟨none⟩), h2.2.2 (Or.inl rfl)]
    decide

/-- C6: fetchData returns the upstream 2-D row array unchanged (ragged rows
preserved, not padded) with rowCount the number of rows; an absent values
field yields an empty array with rowCount 0. -/
theorem c6_data_preserved (req : RequestBody)
    (hid : truthy req.spreadsheetId = true)
    (hsn : truthy req.sheetName = true)
    (hc : connectionValid req.connection = true) :
    (∀ rows : List (List String),
      (fetchDataHandler req (Except.ok ⟨some rows⟩)).status = 200 ∧
      (fetchDataHandler req (Except.ok ⟨some rows⟩)).body =
        DataBody.ok rows rows.length (req.sheetName.getD "")
          (req.spreadsheetId.getD "")) ∧
    ((fetchDataHandler req (Except.ok ⟨none⟩)).body =
      DataBody.ok [] 0 (req.sheetName.getD "") (req.spreadsheetId.getD "")) ∧
    ((fetchDataHandler req (Except.ok ⟨some [["a", "b"], ["c"]]⟩)).body =
      DataBody.ok [["a", "b"], ["c"]] 2 (req.sheetName.getD "")
        (req.spreadsheetId.getD "")) := by
  refine ⟨?_, ?_, ?_⟩
  · intro rows
    rw [fetchDataHandler_ok req (some rows) hid hsn hc]
    exact ⟨rfl, rfl⟩
  · rw [fetchDataHandler_ok req none hid hsn hc]
    rfl
  · rw [fetchDataHandler_ok req (some [["a", "b"], ["c"]]) hid hsn hc]
    rfl

/-- C6 witness: the ragged upstream result from the claim, returned unchanged
at a concrete validated request. -/
theorem c6_witness :
    (fetchDataHandler reqDemo (Except.ok ⟨some [["a", "b"], ["c"]]⟩)).body =
      DataBody.ok [["a", "b"], ["c"]] 2 "Sheet1" "spread-1" := by
  have h := c6_data_preserved reqDemo (by decide) (by decide) (by decide)
  simpa [reqDemo, reqWithRange] using h.2.2

/-- C7: a validated fetchSheets request whose upstream metadata has zero
sheets, or no sheets field at all, gets a success response with empty
sheetNames and count 0; otherwise sheetNames is the list of sheet titles in
upstream order and count its length. -/
theorem c7_sheet_names (req : RequestBody)
    (hid : truthy req.spreadsheetId = true)
    (hc : connectionValid req.connection = true) :
    ((fetchSheetsHandler req (Except.ok ⟨some []⟩)).status = 200 ∧
      (fetchSheetsHandler req (Except.ok ⟨some []⟩)).body =
        SheetsBody.ok [] 0 (req.spreadsheetId.getD "")) ∧
    ((fetchSheetsHandler req (Except.ok ⟨none⟩)).status = 200 ∧
      (fetchSheetsHandler req (Except.ok ⟨none⟩)).body =
        SheetsBody.ok [] 0 (req.spreadsheetId.getD "")) ∧
    (∀ l : List Sheet,
      (fetchSheetsHandler req (Except.ok ⟨some l⟩)).status = 200 ∧
      (fetchSheetsHandler req (Except.ok ⟨some l⟩)).body =
        SheetsBody.ok (l.map fun s => s.properties.title) l.length
          (req.spreadsheetId.getD "")) := by
  refine ⟨?_, ?_, ?_⟩
  · rw [fetchSheetsHandler_ok_some req [] hid hc]
    exact ⟨rfl, rfl⟩
  · rw [fetchSheetsHandler_ok_none req hid hc]
    exact ⟨rfl, rfl⟩
  · intro l
    rw [fetchSheetsHandler_ok_some req l hid hc]
    exact ⟨rfl, by simp⟩

/-- C7 witness: zero sheets and a two-sheet result at a concrete validated
request. -/
theorem c7_witness :
    (fetchSheetsHandler reqDemo (Except.ok ⟨some []⟩)).status = 200 ∧
    (fetchSheetsHandler reqDemo (Except.ok ⟨some []⟩)).body =
      SheetsBody.ok [] 0 "spread-1" ∧
    (fetchSheetsHandler reqDemo
        (Except.ok ⟨some [⟨⟨"Tab1"⟩⟩, ⟨⟨"Tab2"⟩⟩]⟩)).body =
      SheetsBody.ok ["Tab1", "Tab2"] 2 "spread-1" := by
  have h := c7_sheet_names reqDemo (by decide) (by decide)
  refine ⟨h.1.1, ?_, ?_⟩
  · simpa [reqDemo, reqWithRange] using h.1.2
  · simpa [reqDemo, reqWithRange] using (h.2.2 [⟨⟨"Tab1"⟩⟩, ⟨⟨"Tab2"⟩⟩]).2

/-- C8: in every validated request, the private key handed to the
authenticated-client factory is the supplied key with each literal
backslash-n pair replaced by a newline, and the normalized key contains no
literal backslash-n pair (on all four endpoints). -/
theorem c8_private_key_normalized (req : RequestBody) (c : Connection)
    (hcn : req.connection = some c)
    (hid : truthy req.spreadsheetId = true)
    (hsn : truthy req.sheetName = true)
    (hc : connectionValid req.connection = true) :
    credsOf req = ⟨c.clientEmail.getD "", normalizeKey (c.privateKey.getD ""),
      c.projectId.getD ""⟩ ∧
    (∀ u : Except UpstreamError SheetsMetaResult,
      (fetchSheetsHandler req u).clientCreds = some (credsOf req)) ∧
    (∀ u : Except UpstreamError ValuesResult,
      (fetchHeadersHandler req u).clientCreds = some (credsOf req)) ∧
    (∀ u : Except UpstreamError ValuesResult,
      (fetchDataHandler req u).clientCreds = some (credsOf req)) ∧
    (∀ u : Except UpstreamError TitleMetaResult,
      (testAccessHandler req u).clientCreds = some (credsOf req)) ∧
    hasLiteralBackslashN (credsOf req).private_key.data = false ∧
    (∀ s, hasLiteralBackslashN (normalizeKey s).data = false) := by
  have hcr : credsOf req = ⟨c.clientEmail.getD "",
      normalizeKey (c.privateKey.getD ""), c.projectId.getD ""⟩ := by
    simp [credsOf, hcn, serviceAccountOf, createSheetsClientCreds]
  refine ⟨hcr, ?_, ?_, ?_, ?_, ?_, fun s => normalizeKey_no_backslash_n s⟩
  · intro u
    cases u with
    | ok meta =>
      cases meta with
      | mk os =>
        cases os with
        | some l => rw [fetchSheetsHandler_ok_some req l hid hc]
        | none => rw [fetchSheetsHandler_ok_none req hid hc]
    | error e => rw [fetchSheetsHandler_err req e hid hc]
  · intro u
    cases u with
    | ok vres =>
      cases vres with
      | mk v => rw [fetchHeadersHandler_ok req v hid hsn hc]
    | error e => rw [fetchHeadersHandler_err req e hid hsn hc]
  · intro u
    cases u with
    | ok vres =>
      cases vres with
      | mk v => rw [fetchDataHandler_ok req v hid hsn hc]
    | error e => rw [fetchDataHandler_err req e hid hsn hc]
  · intro u
    cases u with
    | ok meta => rw [testAccessHandler_ok req meta hid hc]
    | error e => rw [testAccessHandler_err req e hid hc]
  · rw [hcr]
    exact normalizeKey_no_backslash_n _

/-- C8 witness: a concrete key containing a literal backslash-n pair arrives
at the factory with the pair turned into a newline and no literal pair left. -/
theorem c8_witness :
    (fetchSheetsHandler reqDemo (Except.ok ⟨none⟩)).clientCreds =
      some (credsOf reqDemo) ∧
    hasLiteralBackslashN (credsOf reqDemo).private_key.data = false ∧
    (credsOf reqDemo).private_key = "KEY\nDATA" := by
  have h := c8_private_key_normalized reqDemo connDemo rfl
    (by decide) (by decide) (by decide)
  exact ⟨h.2.1 _, h.2.2.2.2.2.1, by decide⟩

/-- C9: a request whose method and path match none of the five registered
routes is answered 404 with a body listing exactly the five documented
endpoints. -/
theorem c9_unmatched_404 (m p : String) (h : routeMatches m p = false) :
    dispatchFallback m p = some (404, ⟨false, "Endpoint not found",
      ["GET /health", "POST /api/fetchSheets", "POST /api/fetchHeaders",
       "POST /api/fetchData", "POST /api/testAccess"]⟩) := by
  simp [dispatchFallback, h]

/-- C9 witness: a concrete unmatched request. -/
theorem c9_witness :
    dispatchFallback "GET" "/nope" = some (404, ⟨false, "Endpoint not found",
      ["GET /health", "POST /api/fetchSheets", "POST /api/fetchHeaders",
       "POST /api/fetchData", "POST /api/testAccess"]⟩) :=
  c9_unmatched_404 "GET" "/nope" (by decide)

/-- C10 counterexample: the upstream metadata result carries a title (the
empty string), yet the response's spreadsheetTitle is "Unknown" rather than
that title, because an empty title is falsy in the fallback expression. -/
theorem c10_counterexample :
    (testAccessHandler reqDemo (Except.ok ⟨some ⟨some ""⟩⟩)).body =
      TestAccessBody.result true true (some "Unknown") (some "spread-1")
        none none ∧
    ("Unknown" : String) ≠ "" := by
  constructor
  · rw [testAccessHandler_ok reqDemo _ (by decide) (by decide)]
    rfl
  · decide

/-- C10 (amended): every successful testAccess response carries a
spreadsheetTitle field (never omitted); it equals the upstream title when
that title is present and non-empty, and equals "Unknown" when the upstream
result has no properties, no title, or an empty title. -/
theorem c10_spreadsheet_title (req : RequestBody)
    (hid : truthy req.spreadsheetId = true)
    (hc : connectionValid req.connection = true) :
    ∀ meta : TitleMetaResult,
      (testAccessHandler req (Except.ok meta)).body =
        TestAccessBody.result true true (some (titleOf meta))
          (some (req.spreadsheetId.getD "")) none none ∧
      (∀ p t, meta.properties = some p → p.title = some t → t ≠ "" →
        titleOf meta = t) ∧
      ((meta.properties = none ∨
        ∃ p, meta.properties = some p ∧ (p.title = none ∨ p.title = some "")) →
        titleOf meta = "Unknown") := by
  intro meta
  refine ⟨?_, ?_, ?_⟩
  · rw [testAccessHandler_ok req meta hid hc]
  · intro p t hp ht hne
    simp [titleOf, hp, ht, hne]
  · rintro (h | ⟨p, hp, hph⟩)
    · simp [titleOf, h]
    · rcases hph with h | h <;> simp [titleOf, hp, h]

/-- C10 witness: a concrete non-empty title is passed through. -/
theorem c10_witness :
    (testAccessHandler reqDemo (Except.ok ⟨some ⟨some "Budget"⟩⟩)).body =
      TestAccessBody.result true true (some "Budget") (some "spread-1")
        none none := by
  have h := c10_spreadsheet_title reqDemo (by decide) (by decide)
    ⟨some ⟨some "Budget"⟩⟩
  have ht := h.2.1 ⟨some "Budget"⟩ "Budget" rfl rfl (by decide)
  rw [h.1, ht]
  simp [reqDemo, reqWithRange]

end BookGX
